import Mathlib

/-!
# The negotiating round tripper of `rush/task/rt.go`

A shallow embedding of `roundTripper.RoundTrip`, `roundTripper.getTransport`,
`roundTripper.dialTLSContextH2`, `getDialTLSAddr` and `newRoundTripper`.

* The mutable fields of `roundTripper` (`transport`, `initConn`, `initHost`) are a
  record that every operation takes and returns.  The fields that are never
  assigned after construction (`dialFn`, `keyLog`, `context`, `HttpMitm`,
  `ClientHello`, `DebugCountBytes`) are not state; `Network` is kept because
  `getTransport` reads it.
* What the code asks of the outside is a parameter: `Lib` holds the two standard
  library functions whose tables are not part of the repository
  (`net.SplitHostPort`, `strings.ToLower`), `World` holds what one call observes
  (`os.Getenv("PPP")`, the answer of `dialFn`, the answer of the uTLS handshake).
* Every operation also returns the list of calls it made, in order, so that
  "does not dial", "closes the stream" and "delegates" are statements about values.
* Calls are sequential: `rt.Lock()` / `defer rt.Unlock()` is not modelled.
* Writes to standard output (the `DEBUG` traces and the issuer line printed before
  `ErrForbiddeen`) change neither the results nor the fields and are not recorded.
-/

namespace Rush.Task

/-! ## Values -/

/-- An error value made by a collaborator (the dialer, the TLS engine).  Go compares
errors by identity, and the sentinels of this package are allocated by the package,
so a collaborator's error is never identical to one of them. -/
structure CollabError where
  msg : String
deriving DecidableEq, Repr

/-- The error values `RoundTrip` and `dialTLSContextH2` can return: the sentinel of
line 23, the two package sentinels `ErrForbiddeen` and `ErrUnexpectedState` (declared
elsewhere in package `task`, taken as distinct values), the formatted error of line 67
and a collaborator's error handed on unchanged. -/
inductive GoError where
  | errProtocolNegotiated
  | ErrForbiddeen
  | ErrUnexpectedState
  | invalidURLScheme (scheme : String)
  | collab (e : CollabError)
deriving DecidableEq, Repr

/-- The raw byte stream returned by `dialFn`. -/
structure RawConn where
  id : Nat
deriving DecidableEq, Repr

/-- The client of `utls.UClient(rawConn, &utls.Config{ServerName: host,
InsecureSkipVerify: true, ...}, rt.ClientHello)`. -/
structure UConn where
  raw : RawConn
  serverName : String
  insecureSkipVerify : Bool
deriving DecidableEq, Repr

/-- A peer certificate, as far as the code reads it: `Issuer.String()`. -/
structure Certificate where
  issuer : String
deriving DecidableEq, Repr

/-- The part of `conn.ConnectionState()` the code reads. -/
structure ConnectionState where
  peerCertificates : List Certificate
  negotiatedProtocol : String
deriving DecidableEq, Repr

/-- The methods of the round tripper that are installed as dial hooks. -/
inductive DialHook where
  | dialFn
  | dialTLSContextH2
  | dialTLSHTTP2
deriving DecidableEq, Repr

/-- The fields of `http.Transport` the code sets (unset fields have their zero value). -/
structure HttpTransport where
  dialContext : Option DialHook
  dialTLSContext : Option DialHook
  disableCompression : Bool
  disableKeepAlives : Bool
  maxIdleConns : Nat
  httpMitm : Bool
  debugCountBytes : Bool
deriving DecidableEq, Repr

/-- The fields of `http2.Transport` the code sets. -/
structure Http2Transport where
  context : Bool
  dialTLSContext : DialHook
  disableCompression : Bool
  maxHeaderListSize : Nat
  initialWindowSize : Nat
  initialHeaderTableSize : Nat
  pushHandler : Bool
  debugCountBytes : Bool
deriving DecidableEq, Repr

/-- A value of the interface `http.RoundTripper` stored in `rt.transport`. -/
inductive Transport where
  | http (t : HttpTransport)
  | http2 (t : Http2Transport)
deriving DecidableEq, Repr

/-- The part of `url.URL` the code reads. -/
structure URL where
  scheme : String
  host : String
deriving DecidableEq, Repr

/-- The part of `http.Request` the code reads. -/
structure Request where
  url : URL
deriving DecidableEq, Repr

/-- The fields of `roundTripper` that the code reads or assigns after construction. -/
structure roundTripper where
  transport : Option Transport
  initConn : Option UConn
  initHost : String
  Network : String
deriving DecidableEq, Repr

/-- Standard library functions used by the code whose definition lies outside the
repository: `net.SplitHostPort` (`none` is the error result) and `strings.ToLower`. -/
structure Lib where
  splitHostPort : String → Option (String × String)
  toLower : String → String

/-- What one call observes of its surroundings: the value of `os.Getenv("PPP")`, the
answer of `rt.dialFn(ctx, network, addr)` and the answer of `conn.Handshake()`
(on success, the connection state). -/
structure World where
  getenvPPP : String
  dialFn : String → String → Except CollabError RawConn
  handshake : UConn → Except CollabError ConnectionState

/-- The calls made while an operation runs, in order. -/
inductive Event where
  | getTransport (req : Request)
  | dialTLSContextH2 (network addr : String)
  | dial (network addr : String)
  | handshake (conn : UConn)
  | close (conn : UConn)
  | transportRoundTrip (t : Transport) (req : Request)
deriving DecidableEq, Repr

/-- How a Go call ends: it returns a value or it panics. -/
inductive Ret (α : Type) where
  | returned (v : α)
  | panicked
deriving DecidableEq, Repr

/-- The result of running an operation: how it ended, the fields afterwards, the calls
it made. -/
structure Step (α : Type) where
  out : Ret α
  rt : roundTripper
  events : List Event

/-! ## Library functions with a fixed meaning -/

/-- Whether `sub` occurs in `s` as a contiguous block. -/
def containsChars : List Char → List Char → Bool
  | [], sub => sub.isEmpty
  | c :: cs, sub => sub.isPrefixOf (c :: cs) || containsChars cs sub

/-- Go `strings.Contains(s, substr)`. -/
def stringsContains (s substr : String) : Bool :=
  containsChars s.data substr.data

/-- Go `net.JoinHostPort(host, port)`: a host with a colon is put in brackets. -/
def joinHostPort (host port : String) : String :=
  if host.data.contains ':' then "[" ++ host ++ "]:" ++ port else host ++ ":" ++ port

/-- Go `http2.NextProtoTLS`. -/
def NextProtoTLS : String := "h2"

/-! ## The code -/

/-- Function `getDialTLSAddr` (lines 234-241). -/
def getDialTLSAddr (lib : Lib) (u : URL) : String :=
  match lib.splitHostPort u.host with
  | some (host, port) => joinHostPort host port
  | none => joinHostPort u.host u.scheme

/-- The hostname of lines 131-135: the host part of `addr` if it splits, else `addr`. -/
def hostOf (lib : Lib) (addr : String) : String :=
  match lib.splitHostPort addr with
  | some (host, _) => host
  | none => addr

/-- The value `isFoots` of line 154. -/
def isFoots (host : String) : Bool :=
  host == "www.footlocker.dk" || host == "www.footlocker.ca" ||
  host == "www.footlocker.com" || host == "www.champssports.com" ||
  host == "www.footaction.com" || host == "www.eastbay.com" ||
  host == "www.kidsfootlocker.com" || host == "www.footlocker.eu"

/-- The parenthesis of line 170: the issuer contains one of the five names. -/
def issuerAllowed (iss : String) : Bool :=
  stringsContains iss "COMODO" || stringsContains iss "GlobalSign" ||
  stringsContains iss "Let's Encrypt" || stringsContains iss "GeoTrust" ||
  stringsContains iss "DigiCert"

/-- The condition of line 170 under which `ErrForbiddeen` is returned. -/
def forbidden (w : World) (host iss : String) : Bool :=
  w.getenvPPP != "1" && isFoots host && !issuerAllowed iss

/-- The transport of line 63. -/
def plaintextTransport : Transport :=
  .http { dialContext := some .dialFn, dialTLSContext := none, disableCompression := false,
          disableKeepAlives := false, maxIdleConns := 0, httpMitm := true,
          debugCountBytes := true }

/-- The transport of lines 178-187. -/
def h2Transport : Transport :=
  .http2 { context := true, dialTLSContext := .dialTLSHTTP2, disableCompression := true,
           maxHeaderListSize := 262144, initialWindowSize := 6291456,
           initialHeaderTableSize := 65536, pushHandler := true, debugCountBytes := true }

/-- The transport of line 189. -/
def fallbackTransport : Transport :=
  .http { dialContext := none, dialTLSContext := some .dialTLSContextH2,
          disableCompression := true, disableKeepAlives := false, maxIdleConns := 1,
          httpMitm := true, debugCountBytes := true }

/-- The switch of lines 176-190. -/
def selectTransport (prot : String) : Transport :=
  if prot = NextProtoTLS then h2Transport else fallbackTransport

/-- The client of lines 155-158: `utls.UClient` around the raw stream, with
`ServerName: host` and `InsecureSkipVerify: true`. -/
def uclient (raw : RawConn) (host : String) : UConn :=
  { raw := raw, serverName := host, insecureSkipVerify := true }

/-- Lines 148-195 of `dialTLSContextH2`: what follows a missed cache. -/
def negotiate (w : World) (rt : roundTripper) (network addr host : String) :
    Step (Option UConn × Option GoError) :=
  match w.dialFn network addr with
  | .error e =>
    { out := .returned (none, some (.collab e)), rt := rt, events := [.dial network addr] }
  | .ok rawConn =>
    let conn : UConn := uclient rawConn host
    match w.handshake conn with
    | .error e =>
      { out := .returned (none, some (.collab e)), rt := rt,
        events := [.dial network addr, .handshake conn, .close conn] }
    | .ok cs =>
      match cs.peerCertificates with
      | [] =>
        { out := .panicked, rt := rt, events := [.dial network addr, .handshake conn] }
      | leaf :: _ =>
        if forbidden w host leaf.issuer then
          { out := .returned (none, some .ErrForbiddeen), rt := rt,
            events := [.dial network addr, .handshake conn] }
        else
          { out := .returned (none, some .errProtocolNegotiated),
            rt := { rt with transport := some (selectTransport cs.negotiatedProtocol),
                            initConn := some conn, initHost := host },
            events := [.dial network addr, .handshake conn] }

/-- Method `roundTripper.dialTLSContextH2` (lines 124-196), the routine the specification
calls connect. -/
def dialTLSContextH2 (lib : Lib) (w : World) (rt : roundTripper) (network addr : String) :
    Step (Option UConn × Option GoError) :=
  let host := hostOf lib addr
  match rt.initConn with
  | some conn =>
    if rt.initHost = host then
      { out := .returned (some conn, none), rt := { rt with initConn := none },
        events := [.dialTLSContextH2 network addr] }
    else
      let r := negotiate w { rt with initConn := none } network addr host
      { r with events := .dialTLSContextH2 network addr :: r.events }
  | none =>
    let r := negotiate w rt network addr host
    { r with events := .dialTLSContextH2 network addr :: r.events }

/-- Method `roundTripper.getTransport` (lines 60-83). -/
def getTransport (lib : Lib) (w : World) (rt : roundTripper) (req : Request) :
    Step (Option GoError) :=
  if lib.toLower req.url.scheme = "http" then
    { out := .returned none, rt := { rt with transport := some plaintextTransport },
      events := [.getTransport req] }
  else if lib.toLower req.url.scheme = "https" then
    let r := dialTLSContextH2 lib w rt rt.Network (getDialTLSAddr lib req.url)
    match r.out with
    | .panicked => { out := .panicked, rt := r.rt, events := .getTransport req :: r.events }
    | .returned (_, some .errProtocolNegotiated) =>
      { out := .returned none, rt := r.rt, events := .getTransport req :: r.events }
    | .returned (_, none) =>
      { out := .returned (some .ErrUnexpectedState), rt := r.rt,
        events := .getTransport req :: r.events }
    | .returned (_, some err) =>
      { out := .returned (some err), rt := r.rt, events := .getTransport req :: r.events }
  else
    { out := .returned (some (.invalidURLScheme req.url.scheme)), rt := rt,
      events := [.getTransport req] }

/-- What `RoundTrip` returns: the error of `getTransport`, or whatever the method
`RoundTrip` of the transport `t` returns for `req` (line 57 returns that call). -/
inductive RoundTripResult where
  | failed (err : GoError)
  | delegated (t : Transport) (req : Request)
deriving DecidableEq, Repr

/-- Line 57 of `RoundTrip`: the method call on `rt.transport`, which panics on nil. -/
def delegate (rt : roundTripper) (req : Request) (events : List Event) :
    Step RoundTripResult :=
  match rt.transport with
  | some t =>
    { out := .returned (.delegated t req), rt := rt,
      events := events ++ [.transportRoundTrip t req] }
  | none => { out := .panicked, rt := rt, events := events }

/-- Method `roundTripper.RoundTrip` (lines 51-58). -/
def RoundTrip (lib : Lib) (w : World) (rt : roundTripper) (req : Request) :
    Step RoundTripResult :=
  match rt.transport with
  | none =>
    let r := getTransport lib w rt req
    match r.out with
    | .panicked => { out := .panicked, rt := r.rt, events := r.events }
    | .returned (some err) => { out := .returned (.failed err), rt := r.rt, events := r.events }
    | .returned none => delegate r.rt req r.events
  | some _ => delegate rt req []

/-- Function `newRoundTripper` (lines 249-266): no transport, no pending stream. -/
def newRoundTripper (network : String) : roundTripper :=
  { transport := none, initConn := none, initHost := "", Network := network }

/-! ## Sequences of calls -/

/-- One call on a dispatcher: `RoundTrip`, or `dialTLSContextH2` (as the transports
call it through their dial hook). -/
inductive Call where
  | roundTrip (w : World) (req : Request)
  | connect (w : World) (network addr : String)

/-- The fields after one call. -/
def Call.run (lib : Lib) (rt : roundTripper) : Call → roundTripper
  | .roundTrip w req => (RoundTrip lib w rt req).rt
  | .connect w network addr => (dialTLSContextH2 lib w rt network addr).rt

/-- The fields after a sequence of calls. -/
def runCalls (lib : Lib) (rt : roundTripper) (calls : List Call) : roundTripper :=
  calls.foldl (Call.run lib) rt

/-! ## A concrete library and concrete surroundings -/

/-- Go `net.SplitHostPort` on characters: the port follows the last colon; a host in
brackets must end right before that colon; a host without brackets has no colon; no
other bracket may occur. -/
def splitHostPortChars (s : List Char) : Option (List Char × List Char) :=
  if ¬ s.contains ':' then none
  else
    let i := s.length - 1 - s.reverse.indexOf ':'
    if s.head? = some '[' then
      if ¬ s.contains ']' then none
      else
        let e := s.indexOf ']'
        if e + 1 = i then
          if (s.drop 1).contains '[' || (s.drop (e + 1)).contains ']' then none
          else some ((s.take e).drop 1, s.drop (i + 1))
        else none
    else if (s.take i).contains ':' then none
    else if s.contains '[' || s.contains ']' then none
    else some (s.take i, s.drop (i + 1))

/-- Lower-casing of the letters A to Z, on which `strings.ToLower` agrees. -/
def asciiToLower (s : String) : String :=
  ⟨s.data.map Char.toLower⟩

/-- The library used in the concrete runs below. -/
def stdLib : Lib :=
  { splitHostPort := fun s =>
      match splitHostPortChars s.data with
      | some (h, p) => some (⟨h⟩, ⟨p⟩)
      | none => none
    toLower := asciiToLower }

/-- Surroundings in which the dial succeeds and the handshake negotiates `prot` with a
leaf certificate issued by `iss`. -/
def servingWorld (ppp prot iss : String) : World :=
  { getenvPPP := ppp
    dialFn := fun _ _ => .ok ⟨1⟩
    handshake := fun _ => .ok { peerCertificates := [⟨iss⟩], negotiatedProtocol := prot } }

/-- Surroundings in which the dial succeeds and the handshake fails. -/
def brokenHandshakeWorld : World :=
  { getenvPPP := ""
    dialFn := fun _ _ => .ok ⟨1⟩
    handshake := fun _ => .error ⟨"remote error: tls: handshake failure"⟩ }

/-- The eight hostnames the specification calls protected. -/
def protectedHosts : List String :=
  ["www.footlocker.dk", "www.footlocker.ca", "www.footlocker.com", "www.champssports.com",
   "www.footaction.com", "www.eastbay.com", "www.kidsfootlocker.com", "www.footlocker.eu"]

/-- The five issuer-name substrings the specification calls the allow-list. -/
def allowList : List String :=
  ["COMODO", "GlobalSign", "Let's Encrypt", "GeoTrust", "DigiCert"]

/-- A call misses the cache: no pending stream, or one kept for another hostname. -/
def cacheMiss (lib : Lib) (rt : roundTripper) (addr : String) : Prop :=
  rt.initConn = none ∨ rt.initHost ≠ hostOf lib addr

instance (lib : Lib) (rt : roundTripper) (addr : String) : Decidable (cacheMiss lib rt addr) := by
  unfold cacheMiss; infer_instance

/-- Fields with a resolved HTTP/2 transport and a pending stream for
`www.footlocker.com`. -/
def pendingFootlocker : roundTripper :=
  { transport := some h2Transport, initConn := some (⟨⟨7⟩, "www.footlocker.com", true⟩),
    initHost := "www.footlocker.com", Network := "tcp" }

/-- The issuer policy passes, in the words of the specification: the override is on, or
the hostname is not protected, or the issuer contains an allowed name. -/
def policyPasses (w : World) (host iss : String) : Prop :=
  w.getenvPPP = "1" ∨ host ∉ protectedHosts ∨ ∃ name ∈ allowList, name.data <:+: iss.data

/-- A request for `http://example.test`. -/
def plainRequest : Request := { url := { scheme := "http", host := "example.test" } }

/-- A request for `ftp://example.test`. -/
def ftpRequest : Request := { url := { scheme := "ftp", host := "example.test" } }

/-- A request for `https://a.test`. -/
def tlsRequest : Request := { url := { scheme := "https", host := "a.test" } }

/-- The invariant of the pending stream: it is present only with a resolved transport. -/
def PendingImpliesTransport (rt : roundTripper) : Prop :=
  rt.initConn ≠ none → rt.transport ≠ none

/-! ## Lemmas -/

theorem containsChars_iff_infix (s sub : List Char) :
    containsChars s sub = true ↔ sub <:+: s := by
  induction s with
  | nil => cases sub <;> simp [containsChars]
  | cons c cs ih =>
    rw [containsChars, Bool.or_eq_true, ih, List.infix_cons_iff, List.isPrefixOf_iff_prefix]

theorem isFoots_iff_mem (host : String) : isFoots host = true ↔ host ∈ protectedHosts := by
  simp [isFoots, protectedHosts, or_assoc]

theorem issuerAllowed_iff (iss : String) :
    issuerAllowed iss = true ↔ ∃ name ∈ allowList, stringsContains iss name = true := by
  simp [issuerAllowed, allowList, or_assoc]

/-- On a missed cache `dialTLSContextH2` is `negotiate` on the fields without the pending
stream, behind its own entry in the list of calls. -/
theorem dialTLSContextH2_miss (lib : Lib) (w : World) (rt : roundTripper)
    (network addr : String) (hmiss : cacheMiss lib rt addr) :
    dialTLSContextH2 lib w rt network addr =
      { negotiate w { rt with initConn := none } network addr (hostOf lib addr) with
        events := .dialTLSContextH2 network addr ::
          (negotiate w { rt with initConn := none } network addr (hostOf lib addr)).events } := by
  unfold dialTLSContextH2
  rcases hmiss with h | h
  · have : ({ rt with initConn := none } : roundTripper) = rt := by
      cases rt; simp_all
    simp [h, this]
  · cases hc : rt.initConn with
    | none =>
      have : ({ rt with initConn := none } : roundTripper) = rt := by
        cases rt; simp_all
      simp [this]
    | some c => simp [h]

theorem negotiate_dial_error (w : World) (rt : roundTripper) (network addr host : String)
    (e : CollabError) (hd : w.dialFn network addr = .error e) :
    negotiate w rt network addr host =
      { out := .returned (none, some (.collab e)), rt := rt,
        events := [.dial network addr] } := by
  simp [negotiate, hd]

theorem negotiate_handshake_error (w : World) (rt : roundTripper)
    (network addr host : String) (raw : RawConn) (e : CollabError)
    (hd : w.dialFn network addr = .ok raw)
    (hs : w.handshake (uclient raw host) = .error e) :
    negotiate w rt network addr host =
      { out := .returned (none, some (.collab e)), rt := rt,
        events := [.dial network addr, .handshake (uclient raw host),
                   .close (uclient raw host)] } := by
  simp [negotiate, hd, hs]

theorem negotiate_no_certificate (w : World) (rt : roundTripper)
    (network addr host : String) (raw : RawConn) (cs : ConnectionState)
    (hd : w.dialFn network addr = .ok raw)
    (hs : w.handshake (uclient raw host) = .ok cs) (hleaf : cs.peerCertificates = []) :
    negotiate w rt network addr host =
      { out := .panicked, rt := rt,
        events := [.dial network addr, .handshake (uclient raw host)] } := by
  simp [negotiate, hd, hs, hleaf]

theorem negotiate_forbidden (w : World) (rt : roundTripper)
    (network addr host : String) (raw : RawConn) (cs : ConnectionState)
    (leaf : Certificate) (rest : List Certificate)
    (hd : w.dialFn network addr = .ok raw)
    (hs : w.handshake (uclient raw host) = .ok cs)
    (hleaf : cs.peerCertificates = leaf :: rest)
    (hf : forbidden w host leaf.issuer = true) :
    negotiate w rt network addr host =
      { out := .returned (none, some .ErrForbiddeen), rt := rt,
        events := [.dial network addr, .handshake (uclient raw host)] } := by
  simp [negotiate, hd, hs, hleaf, hf]

theorem negotiate_accepted (w : World) (rt : roundTripper)
    (network addr host : String) (raw : RawConn) (cs : ConnectionState)
    (leaf : Certificate) (rest : List Certificate)
    (hd : w.dialFn network addr = .ok raw)
    (hs : w.handshake (uclient raw host) = .ok cs)
    (hleaf : cs.peerCertificates = leaf :: rest)
    (hf : forbidden w host leaf.issuer = false) :
    negotiate w rt network addr host =
      { out := .returned (none, some .errProtocolNegotiated),
        rt := { rt with transport := some (selectTransport cs.negotiatedProtocol),
                        initConn := some (uclient raw host), initHost := host },
        events := [.dial network addr, .handshake (uclient raw host)] } := by
  simp [negotiate, hd, hs, hleaf, hf]

/-- The five ways `negotiate` can end. -/
theorem negotiate_cases (w : World) (rt : roundTripper) (network addr host : String) :
    (negotiate w rt network addr host).rt = rt ∧
      ((∃ e, (negotiate w rt network addr host).out = .returned (none, some (.collab e))) ∨
       (negotiate w rt network addr host).out = .panicked ∨
       (negotiate w rt network addr host).out = .returned (none, some .ErrForbiddeen)) ∨
    ∃ (raw : RawConn) (cs : ConnectionState),
      w.dialFn network addr = .ok raw ∧ w.handshake (uclient raw host) = .ok cs ∧
      (negotiate w rt network addr host).out
        = .returned (none, some .errProtocolNegotiated) ∧
      (negotiate w rt network addr host).rt =
        { rt with transport := some (selectTransport cs.negotiatedProtocol),
                  initConn := some (uclient raw host), initHost := host } := by
  cases hd : w.dialFn network addr with
  | error e =>
    rw [negotiate_dial_error w rt network addr host e hd]
    exact Or.inl ⟨rfl, Or.inl ⟨e, rfl⟩⟩
  | ok raw =>
    cases hs : w.handshake (uclient raw host) with
    | error e =>
      rw [negotiate_handshake_error w rt network addr host raw e hd hs]
      exact Or.inl ⟨rfl, Or.inl ⟨e, rfl⟩⟩
    | ok cs =>
      cases hleaf : cs.peerCertificates with
      | nil =>
        rw [negotiate_no_certificate w rt network addr host raw cs hd hs hleaf]
        exact Or.inl ⟨rfl, Or.inr (Or.inl rfl)⟩
      | cons leaf rest =>
        cases hf : forbidden w host leaf.issuer with
        | true =>
          rw [negotiate_forbidden w rt network addr host raw cs leaf rest hd hs hleaf hf]
          exact Or.inl ⟨rfl, Or.inr (Or.inr rfl)⟩
        | false =>
          rw [negotiate_accepted w rt network addr host raw cs leaf rest hd hs hleaf hf]
          exact Or.inr ⟨raw, cs, rfl, hs, rfl, rfl⟩

/-- No stream is ever returned by `negotiate`. -/
theorem negotiate_no_stream (w : World) (rt : roundTripper) (network addr host : String)
    (x : Option UConn × Option GoError)
    (h : (negotiate w rt network addr host).out = .returned x) : x.1 = none := by
  rcases negotiate_cases w rt network addr host with ⟨_, ⟨e, he⟩ | he | he⟩ | ⟨_, _, _, _, he, _⟩ <;>
    rw [he] at h <;> cases h <;> rfl

/-- On a hit `dialTLSContextH2` hands out the pending stream and forgets it. -/
theorem connect_cache_hit_aux (lib : Lib) (w : World) (rt : roundTripper)
    (network addr : String) (c : UConn)
    (hc : rt.initConn = some c) (hh : rt.initHost = hostOf lib addr) :
    dialTLSContextH2 lib w rt network addr =
      { out := .returned (some c, none), rt := { rt with initConn := none },
        events := [.dialTLSContextH2 network addr] } := by
  simp [dialTLSContextH2, hc, hh]

/-- With a transport resolved, `RoundTrip` is the call of line 57 alone. -/
theorem RoundTrip_of_resolved (lib : Lib) (w : World) (rt : roundTripper) (req : Request)
    (t : Transport) (ht : rt.transport = some t) :
    RoundTrip lib w rt req =
      { out := .returned (.delegated t req), rt := rt,
        events := [.transportRoundTrip t req] } := by
  simp [RoundTrip, delegate, ht]

/-- The fields `getTransport` leaves. -/
theorem getTransport_rt (lib : Lib) (w : World) (rt : roundTripper) (req : Request) :
    (getTransport lib w rt req).rt =
      if lib.toLower req.url.scheme = "http" then
        { rt with transport := some plaintextTransport }
      else if lib.toLower req.url.scheme = "https" then
        (dialTLSContextH2 lib w rt rt.Network (getDialTLSAddr lib req.url)).rt
      else rt := by
  unfold getTransport
  split_ifs
  · rfl
  · simp only
    split <;> rfl
  · rfl

/-- The fields `RoundTrip` leaves: those `getTransport` leaves if it is called. -/
theorem RoundTrip_rt (lib : Lib) (w : World) (rt : roundTripper) (req : Request) :
    (RoundTrip lib w rt req).rt =
      if rt.transport = none then (getTransport lib w rt req).rt else rt := by
  unfold RoundTrip
  cases ht : rt.transport with
  | some t => simp [delegate, ht]
  | none =>
    simp only [if_true]
    split
    · rfl
    · rfl
    · unfold delegate
      split <;> rfl

/-- After a connect, the fields are those before without the pending stream, or the
call missed the cache, dialled, completed a handshake and ended with the sentinel of
line 195, with the transport selected from the protocol of that handshake. -/
theorem connect_rt_cases (lib : Lib) (w : World) (rt : roundTripper)
    (network addr : String) :
    ((dialTLSContextH2 lib w rt network addr).rt = { rt with initConn := none } ∧
      (dialTLSContextH2 lib w rt network addr).out
        ≠ .returned (none, some .errProtocolNegotiated)) ∨
    ∃ (raw : RawConn) (cs : ConnectionState),
      cacheMiss lib rt addr ∧ w.dialFn network addr = .ok raw ∧
      w.handshake (uclient raw (hostOf lib addr)) = .ok cs ∧
      (dialTLSContextH2 lib w rt network addr).out
        = .returned (none, some .errProtocolNegotiated) ∧
      (dialTLSContextH2 lib w rt network addr).rt =
        { rt with transport := some (selectTransport cs.negotiatedProtocol),
                  initConn := some (uclient raw (hostOf lib addr)),
                  initHost := hostOf lib addr } := by
  by_cases hmiss : cacheMiss lib rt addr
  · rw [dialTLSContextH2_miss lib w rt network addr hmiss]
    rcases negotiate_cases w { rt with initConn := none } network addr (hostOf lib addr) with
      ⟨hrt, ⟨e, he⟩ | he | he⟩ | ⟨raw, cs, hd, hs, he, hrt⟩
    · exact Or.inl ⟨hrt, by simp [he]⟩
    · exact Or.inl ⟨hrt, by simp [he]⟩
    · exact Or.inl ⟨hrt, by simp [he]⟩
    · exact Or.inr ⟨raw, cs, hmiss, hd, hs, he, hrt⟩
  · unfold cacheMiss at hmiss
    push_neg at hmiss
    obtain ⟨hc, hh⟩ := hmiss
    obtain ⟨c, hc⟩ := Option.ne_none_iff_exists'.1 hc
    rw [connect_cache_hit_aux lib w rt network addr c hc hh]
    exact Or.inl ⟨rfl, by simp⟩

/-- Every connect leaves the invariant true. -/
theorem connect_invariant (lib : Lib) (w : World) (rt : roundTripper)
    (network addr : String) :
    PendingImpliesTransport (dialTLSContextH2 lib w rt network addr).rt := by
  rcases connect_rt_cases lib w rt network addr with ⟨h, _⟩ | ⟨_, _, _, _, _, _, h⟩ <;>
    rw [h] <;> simp [PendingImpliesTransport]

/-- Every `RoundTrip` keeps the invariant. -/
theorem RoundTrip_invariant (lib : Lib) (w : World) (rt : roundTripper) (req : Request)
    (h : PendingImpliesTransport rt) :
    PendingImpliesTransport (RoundTrip lib w rt req).rt := by
  rw [RoundTrip_rt, getTransport_rt]
  split_ifs
  · simp [PendingImpliesTransport]
  · exact connect_invariant lib w rt _ _
  · exact h
  · exact h

/-- The invariant holds after every sequence of calls that starts where it holds. -/
theorem runCalls_invariant (lib : Lib) (calls : List Call) (rt : roundTripper)
    (h : PendingImpliesTransport rt) : PendingImpliesTransport (runCalls lib rt calls) := by
  induction calls generalizing rt with
  | nil => exact h
  | cons call rest ih =>
    have hstep : PendingImpliesTransport (Call.run lib rt call) := by
      cases call with
      | roundTrip w req => exact RoundTrip_invariant lib w rt req h
      | connect w network addr => exact connect_invariant lib w rt network addr
    exact ih _ hstep

/-- A resolved transport stays resolved through one call. -/
theorem Call.run_transport_ne_none (lib : Lib) (rt : roundTripper) (call : Call)
    (h : rt.transport ≠ none) : (Call.run lib rt call).transport ≠ none := by
  cases call with
  | roundTrip w req =>
    simp only [Call.run, RoundTrip_rt, if_neg h]
    exact h
  | connect w network addr =>
    simp only [Call.run]
    rcases connect_rt_cases lib w rt network addr with ⟨hr, _⟩ | ⟨_, _, _, _, _, _, hr⟩ <;>
      rw [hr]
    · exact h
    · simp

/-- A resolved transport stays resolved through every sequence of calls. -/
theorem runCalls_transport_ne_none (lib : Lib) (calls : List Call) (rt : roundTripper)
    (h : rt.transport ≠ none) : (runCalls lib rt calls).transport ≠ none := by
  induction calls generalizing rt with
  | nil => exact h
  | cons call rest ih => exact ih _ (Call.run_transport_ne_none lib rt call h)

/-- How `getTransport` ends when there is no pending stream: with nil and a transport
set, with a panic, or with an error that is a collaborator's, `ErrForbiddeen` or the
one of line 67. -/
theorem getTransport_cases (lib : Lib) (w : World) (rt : roundTripper) (req : Request)
    (hc : rt.initConn = none) :
    ((getTransport lib w rt req).out = .returned none ∧
      (getTransport lib w rt req).rt.transport ≠ none) ∨
    (getTransport lib w rt req).out = .panicked ∨
    (∃ e, (getTransport lib w rt req).out = .returned (some (.collab e))) ∨
    (getTransport lib w rt req).out = .returned (some .ErrForbiddeen) ∨
    (getTransport lib w rt req).out = .returned (some (.invalidURLScheme req.url.scheme)) := by
  unfold getTransport
  split_ifs with h1 h2
  · exact Or.inl ⟨rfl, by simp⟩
  · rw [dialTLSContextH2_miss lib w rt rt.Network _ (Or.inl hc)]
    rcases negotiate_cases w { rt with initConn := none } rt.Network
        (getDialTLSAddr lib req.url) (hostOf lib (getDialTLSAddr lib req.url)) with
      ⟨_, ⟨e, he⟩ | he | he⟩ | ⟨raw, cs, _, _, he, hrt⟩
    · exact Or.inr (Or.inr (Or.inl ⟨e, by simp [he]⟩))
    · exact Or.inr (Or.inl (by simp [he]))
    · exact Or.inr (Or.inr (Or.inr (Or.inl (by simp [he]))))
    · exact Or.inl ⟨by simp [he], by simp [he, hrt]⟩
  · exact Or.inr (Or.inr (Or.inr (Or.inr rfl)))

/-- A connect without a pending stream does not return a nil error. -/
theorem connect_error_of_no_pending (lib : Lib) (w : World) (rt : roundTripper)
    (network addr : String) (hc : rt.initConn = none) (x : Option UConn) :
    (dialTLSContextH2 lib w rt network addr).out ≠ .returned (x, none) := by
  rw [dialTLSContextH2_miss lib w rt network addr (Or.inl hc)]
  rcases negotiate_cases w { rt with initConn := none } network addr (hostOf lib addr) with
    ⟨_, ⟨e, he⟩ | he | he⟩ | ⟨_, _, _, _, he, _⟩ <;> simp [he]

/-! ## Claims -/

/-- C1: a cache hit of connect. If the dispatcher holds a pending stream `c` whose
pending hostname is the hostname derived from `addr`, `dialTLSContextH2` returns
`(c, nil)`, makes no call to the dialer or to a handshake, leaves `transport` as it
was and leaves no pending stream, and a connect that follows with the same `addr`
(whatever its surroundings) does not return a stream at all, so not `c`. -/
theorem connect_cache_hit (lib : Lib) (w : World) (rt : roundTripper)
    (network addr : String) (c : UConn)
    (hc : rt.initConn = some c) (hh : rt.initHost = hostOf lib addr) :
    (dialTLSContextH2 lib w rt network addr).out = .returned (some c, none) ∧
    (dialTLSContextH2 lib w rt network addr).events = [.dialTLSContextH2 network addr] ∧
    (dialTLSContextH2 lib w rt network addr).rt.transport = rt.transport ∧
    (dialTLSContextH2 lib w rt network addr).rt.initConn = none ∧
    ∀ (w2 : World) (network2 : String) (x : Option UConn × Option GoError),
      (dialTLSContextH2 lib w2 (dialTLSContextH2 lib w rt network addr).rt network2 addr).out
        = .returned x → x.1 = none := by
  rw [connect_cache_hit_aux lib w rt network addr c hc hh]
  refine ⟨rfl, rfl, rfl, rfl, ?_⟩
  intro w2 network2 x hx
  rw [dialTLSContextH2_miss lib w2 _ network2 addr (Or.inl rfl)] at hx
  exact negotiate_no_stream _ _ _ _ _ _ hx

/-- A pending stream for `www.footlocker.com` is handed out once. -/
theorem connect_cache_hit_witness :
    (pendingFootlocker.initConn = some ⟨⟨7⟩, "www.footlocker.com", true⟩ ∧
      pendingFootlocker.initHost = hostOf stdLib "www.footlocker.com:443") ∧
    (dialTLSContextH2 stdLib (servingWorld "" "h2" "CN=GlobalSign") pendingFootlocker
        "tcp" "www.footlocker.com:443").out
      = .returned (some ⟨⟨7⟩, "www.footlocker.com", true⟩, none) :=
  ⟨⟨rfl, by decide⟩,
   (connect_cache_hit stdLib (servingWorld "" "h2" "CN=GlobalSign") pendingFootlocker
      "tcp" "www.footlocker.com:443" ⟨⟨7⟩, "www.footlocker.com", true⟩ rfl (by decide)).1⟩

/-- The condition of line 170 in the words of the specification: the override is off,
the hostname is protected and the issuer contains no allowed name. -/
theorem forbidden_iff (w : World) (host iss : String) :
    forbidden w host iss = true ↔
      w.getenvPPP ≠ "1" ∧ host ∈ protectedHosts ∧
        ∀ name ∈ allowList, ¬ name.data <:+: iss.data := by
  have hall : issuerAllowed iss = false ↔ ∀ name ∈ allowList, ¬ name.data <:+: iss.data := by
    rw [← Bool.not_eq_true, issuerAllowed_iff]
    simp only [stringsContains, containsChars_iff_infix]
    push_neg
    rfl
  rw [← hall, ← isFoots_iff_mem]
  simp [forbidden, and_assoc]

/-- C2: a policy violation. When a connect misses the cache, the dial and the handshake
succeed, `PPP` is not "1", the hostname is one of the eight protected hostnames and the
issuer of the leaf certificate contains none of the five allowed names, then
`dialTLSContextH2` returns `(nil, ErrForbiddeen)`; the fields afterwards are those
before with no pending stream: `transport` is not assigned and neither the handshaken
stream nor the hostname is stored. On a new dispatcher, transport and pending stream are
absent afterwards. -/
theorem connect_policy_violation (lib : Lib) (w : World) (rt : roundTripper)
    (network addr : String) (raw : RawConn) (cs : ConnectionState)
    (leaf : Certificate) (rest : List Certificate)
    (hmiss : cacheMiss lib rt addr)
    (hd : w.dialFn network addr = .ok raw)
    (hs : w.handshake (uclient raw (hostOf lib addr)) = .ok cs)
    (hleaf : cs.peerCertificates = leaf :: rest)
    (hppp : w.getenvPPP ≠ "1")
    (hhost : hostOf lib addr ∈ protectedHosts)
    (hiss : ∀ name ∈ allowList, ¬ name.data <:+: leaf.issuer.data) :
    (dialTLSContextH2 lib w rt network addr).out = .returned (none, some .ErrForbiddeen) ∧
    (dialTLSContextH2 lib w rt network addr).rt = { rt with initConn := none } ∧
    (∀ n, rt = newRoundTripper n →
      (dialTLSContextH2 lib w rt network addr).rt.transport = none ∧
      (dialTLSContextH2 lib w rt network addr).rt.initConn = none ∧
      (dialTLSContextH2 lib w rt network addr).rt.initHost = "") := by
  have hf : forbidden w (hostOf lib addr) leaf.issuer = true :=
    (forbidden_iff w _ _).2 ⟨hppp, hhost, hiss⟩
  rw [dialTLSContextH2_miss lib w rt network addr hmiss,
    negotiate_forbidden w _ network addr _ raw cs leaf rest hd hs hleaf hf]
  refine ⟨rfl, rfl, ?_⟩
  rintro n rfl
  exact ⟨rfl, rfl, rfl⟩

/-- The issuer "CN=Fake CA" contains none of the allowed names. -/
theorem fakeCA_not_allowed : ∀ name ∈ allowList, ¬ name.data <:+: "CN=Fake CA".data := by
  intro name hn
  rw [← containsChars_iff_infix]
  revert name
  decide

/-- A new dispatcher that meets "CN=Fake CA" at `www.footlocker.com` gets
`ErrForbiddeen`. -/
theorem connect_policy_violation_witness :
    (cacheMiss stdLib (newRoundTripper "tcp") "www.footlocker.com:443" ∧
      (servingWorld "" "h2" "CN=Fake CA").getenvPPP ≠ "1" ∧
      hostOf stdLib "www.footlocker.com:443" ∈ protectedHosts ∧
      ∀ name ∈ allowList, ¬ name.data <:+: "CN=Fake CA".data) ∧
    (dialTLSContextH2 stdLib (servingWorld "" "h2" "CN=Fake CA") (newRoundTripper "tcp")
        "tcp" "www.footlocker.com:443").out = .returned (none, some .ErrForbiddeen) :=
  ⟨⟨Or.inl rfl, by decide, by decide, fakeCA_not_allowed⟩,
   (connect_policy_violation stdLib (servingWorld "" "h2" "CN=Fake CA")
      (newRoundTripper "tcp") "tcp" "www.footlocker.com:443" ⟨1⟩
      { peerCertificates := [⟨"CN=Fake CA"⟩], negotiatedProtocol := "h2" } ⟨"CN=Fake CA"⟩ []
      (Or.inl rfl) rfl rfl rfl (by decide) (by decide) fakeCA_not_allowed).1⟩

theorem forbidden_eq_false_of_passes (w : World) (host iss : String)
    (h : policyPasses w host iss) : forbidden w host iss = false := by
  rw [← Bool.not_eq_true, forbidden_iff]
  rintro ⟨h1, h2, h3⟩
  rcases h with h | h | ⟨name, hn, hi⟩
  · exact h1 h
  · exact h h2
  · exact h3 name hn hi

/-- When `dialTLSContextH2` ends with the sentinel of line 195, `getTransport` on an
"https" request ends with nil, on the fields the connect left. -/
theorem getTransport_of_negotiated (lib : Lib) (w : World) (rt : roundTripper)
    (req : Request) (hsch : lib.toLower req.url.scheme = "https")
    (h : (dialTLSContextH2 lib w rt rt.Network (getDialTLSAddr lib req.url)).out
      = .returned (none, some .errProtocolNegotiated)) :
    (getTransport lib w rt req).out = .returned none ∧
    (getTransport lib w rt req).rt
      = (dialTLSContextH2 lib w rt rt.Network (getDialTLSAddr lib req.url)).rt := by
  have hne : lib.toLower req.url.scheme ≠ "http" := by rw [hsch]; decide
  unfold getTransport
  rw [if_neg hne, if_pos hsch]
  simp [h]

/-- C5: a successful negotiation. When a connect misses the cache, the dial and the
handshake succeed and the issuer policy passes, `transport` becomes the HTTP/2 transport
if the negotiated protocol is "h2" and the fallback HTTP/1.x transport for every other
protocol, the empty one included; the handshaken stream and the derived hostname become
the pending stream and hostname; the call returns `(nil, errProtocolNegotiated)`; and
`getTransport`, when it is the caller, returns nil. -/
theorem connect_negotiated (lib : Lib) (w : World) (rt : roundTripper)
    (network addr : String) (raw : RawConn) (cs : ConnectionState)
    (leaf : Certificate) (rest : List Certificate)
    (hmiss : cacheMiss lib rt addr)
    (hd : w.dialFn network addr = .ok raw)
    (hs : w.handshake (uclient raw (hostOf lib addr)) = .ok cs)
    (hleaf : cs.peerCertificates = leaf :: rest)
    (hpass : policyPasses w (hostOf lib addr) leaf.issuer) :
    (dialTLSContextH2 lib w rt network addr).out
      = .returned (none, some .errProtocolNegotiated) ∧
    (dialTLSContextH2 lib w rt network addr).rt.transport
      = some (if cs.negotiatedProtocol = "h2" then h2Transport else fallbackTransport) ∧
    (dialTLSContextH2 lib w rt network addr).rt.initConn
      = some { raw := raw, serverName := hostOf lib addr, insecureSkipVerify := true } ∧
    (dialTLSContextH2 lib w rt network addr).rt.initHost = hostOf lib addr ∧
    (∀ req : Request, lib.toLower req.url.scheme = "https" → network = rt.Network →
      addr = getDialTLSAddr lib req.url →
      (getTransport lib w rt req).out = .returned none ∧
      (getTransport lib w rt req).rt = (dialTLSContextH2 lib w rt network addr).rt) := by
  have hf := forbidden_eq_false_of_passes w _ _ hpass
  have hr := dialTLSContextH2_miss lib w rt network addr hmiss
  rw [negotiate_accepted w _ network addr _ raw cs leaf rest hd hs hleaf hf] at hr
  refine ⟨by rw [hr], by rw [hr]; rfl, by rw [hr]; rfl, by rw [hr], ?_⟩
  rintro req hsch rfl rfl
  exact getTransport_of_negotiated lib w rt req hsch (by rw [hr])

/-- A new dispatcher that negotiates no protocol at `example.test` selects the fallback
transport and keeps the stream. -/
theorem connect_negotiated_witness :
    (cacheMiss stdLib (newRoundTripper "tcp") "example.test:443" ∧
      policyPasses (servingWorld "" "" "CN=Example CA")
        (hostOf stdLib "example.test:443") "CN=Example CA") ∧
    (dialTLSContextH2 stdLib (servingWorld "" "" "CN=Example CA") (newRoundTripper "tcp")
        "tcp" "example.test:443").rt.transport
      = some (if ("" : String) = "h2" then h2Transport else fallbackTransport) :=
  ⟨⟨Or.inl rfl, Or.inr (Or.inl (by decide))⟩,
   (connect_negotiated stdLib (servingWorld "" "" "CN=Example CA") (newRoundTripper "tcp")
      "tcp" "example.test:443" ⟨1⟩
      { peerCertificates := [⟨"CN=Example CA"⟩], negotiatedProtocol := "" }
      ⟨"CN=Example CA"⟩ [] (Or.inl rfl) rfl rfl rfl (Or.inr (Or.inl (by decide)))).2.1⟩

/-- Only for a protected hostname does `dialTLSContextH2` return `ErrForbiddeen`. -/
theorem connect_forbidden_only_protected (lib : Lib) (w : World) (rt : roundTripper)
    (network addr : String) (x : Option UConn)
    (h : (dialTLSContextH2 lib w rt network addr).out = .returned (x, some .ErrForbiddeen)) :
    hostOf lib addr ∈ protectedHosts := by
  by_cases hmiss : cacheMiss lib rt addr
  · rw [dialTLSContextH2_miss lib w rt network addr hmiss] at h
    simp only at h
    by_contra hhost
    cases hd : w.dialFn network addr with
    | error e => rw [negotiate_dial_error w _ network addr _ e hd] at h; cases h
    | ok raw =>
      cases hs : w.handshake (uclient raw (hostOf lib addr)) with
      | error e => rw [negotiate_handshake_error w _ network addr _ raw e hd hs] at h; cases h
      | ok cs =>
        cases hleaf : cs.peerCertificates with
        | nil => rw [negotiate_no_certificate w _ network addr _ raw cs hd hs hleaf] at h; cases h
        | cons leaf rest =>
          have hf := forbidden_eq_false_of_passes w (hostOf lib addr) leaf.issuer
            (Or.inr (Or.inl hhost))
          rw [negotiate_accepted w _ network addr _ raw cs leaf rest hd hs hleaf hf] at h
          cases h
  · unfold cacheMiss at hmiss
    push_neg at hmiss
    obtain ⟨hc, hh⟩ := hmiss
    obtain ⟨c, hc⟩ := Option.ne_none_iff_exists'.1 hc
    rw [(connect_cache_hit_aux lib w rt network addr c hc hh)] at h
    cases h

/-- C7: for a hostname that is not protected any issuer is accepted. If the hostname
derived from `addr` is none of the eight protected hostnames, then a connect that
misses the cache and whose dial and handshake succeed returns
`(nil, errProtocolNegotiated)` with the transport selected from the negotiated
protocol, whatever the issuer of the leaf certificate; and no connect to `addr`, in any
state and any surroundings, returns `ErrForbiddeen`. -/
theorem connect_unprotected_any_issuer (lib : Lib) (w : World) (rt : roundTripper)
    (network addr : String) (raw : RawConn) (cs : ConnectionState)
    (leaf : Certificate) (rest : List Certificate)
    (hhost : hostOf lib addr ∉ protectedHosts)
    (hmiss : cacheMiss lib rt addr)
    (hd : w.dialFn network addr = .ok raw)
    (hs : w.handshake (uclient raw (hostOf lib addr)) = .ok cs)
    (hleaf : cs.peerCertificates = leaf :: rest) :
    (dialTLSContextH2 lib w rt network addr).out
      = .returned (none, some .errProtocolNegotiated) ∧
    (dialTLSContextH2 lib w rt network addr).rt.transport
      = some (selectTransport cs.negotiatedProtocol) ∧
    (∀ (w2 : World) (rt2 : roundTripper) (network2 : String) (x : Option UConn),
      (dialTLSContextH2 lib w2 rt2 network2 addr).out
        ≠ .returned (x, some .ErrForbiddeen)) := by
  have hf := forbidden_eq_false_of_passes w (hostOf lib addr) leaf.issuer
    (Or.inr (Or.inl hhost))
  have hr := dialTLSContextH2_miss lib w rt network addr hmiss
  rw [negotiate_accepted w _ network addr _ raw cs leaf rest hd hs hleaf hf] at hr
  refine ⟨by rw [hr], by rw [hr], ?_⟩
  intro w2 rt2 network2 x h
  exact hhost (connect_forbidden_only_protected lib w2 rt2 network2 addr x h)

/-- At `example.test` the issuer "CN=Fake CA" is accepted. -/
theorem connect_unprotected_any_issuer_witness :
    (hostOf stdLib "example.test:443" ∉ protectedHosts ∧
      cacheMiss stdLib (newRoundTripper "tcp") "example.test:443") ∧
    (dialTLSContextH2 stdLib (servingWorld "" "h2" "CN=Fake CA") (newRoundTripper "tcp")
        "tcp" "example.test:443").out = .returned (none, some .errProtocolNegotiated) :=
  ⟨⟨by decide, Or.inl rfl⟩,
   (connect_unprotected_any_issuer stdLib (servingWorld "" "h2" "CN=Fake CA")
      (newRoundTripper "tcp") "tcp" "example.test:443" ⟨1⟩
      { peerCertificates := [⟨"CN=Fake CA"⟩], negotiatedProtocol := "h2" } ⟨"CN=Fake CA"⟩ []
      (by decide) (Or.inl rfl) rfl rfl rfl).1⟩

/-- C8: a handshake failure. When a connect misses the cache, the dial returns the
stream `raw` and the handshake fails with `e`, then the calls made are the dial, the
handshake and, last, `Close` on the client that wraps `raw`; `dialTLSContextH2` returns
`(nil, e)`; and the fields afterwards are those before with no pending stream:
`transport`, pending stream and pending hostname are not assigned. -/
theorem connect_handshake_failure (lib : Lib) (w : World) (rt : roundTripper)
    (network addr : String) (raw : RawConn) (e : CollabError)
    (hmiss : cacheMiss lib rt addr)
    (hd : w.dialFn network addr = .ok raw)
    (hs : w.handshake (uclient raw (hostOf lib addr)) = .error e) :
    (dialTLSContextH2 lib w rt network addr).out = .returned (none, some (.collab e)) ∧
    (dialTLSContextH2 lib w rt network addr).events =
      [.dialTLSContextH2 network addr, .dial network addr,
       .handshake (uclient raw (hostOf lib addr)), .close (uclient raw (hostOf lib addr))] ∧
    (uclient raw (hostOf lib addr)).raw = raw ∧
    (dialTLSContextH2 lib w rt network addr).rt = { rt with initConn := none } := by
  rw [dialTLSContextH2_miss lib w rt network addr hmiss,
    negotiate_handshake_error w _ network addr _ raw e hd hs]
  exact ⟨rfl, rfl, rfl, rfl⟩

/-- A failed handshake at `example.test` closes the stream and hands the error on. -/
theorem connect_handshake_failure_witness :
    cacheMiss stdLib (newRoundTripper "tcp") "example.test:443" ∧
    (dialTLSContextH2 stdLib brokenHandshakeWorld (newRoundTripper "tcp")
        "tcp" "example.test:443").out
      = .returned (none, some (.collab ⟨"remote error: tls: handshake failure"⟩)) :=
  ⟨Or.inl rfl,
   (connect_handshake_failure stdLib brokenHandshakeWorld (newRoundTripper "tcp")
      "tcp" "example.test:443" ⟨1⟩ ⟨"remote error: tls: handshake failure"⟩
      (Or.inl rfl) rfl rfl).1⟩

/-- C9, as the code behaves: a new dispatcher that meets the issuer "CN=Fake CA" at the
protected hostname `www.footlocker.com` returns `(nil, ErrForbiddeen)` after a dial
and a handshake and without any call of `Close`: the handshaken stream stays open. -/
theorem connect_policy_violation_no_close :
    (dialTLSContextH2 stdLib (servingWorld "" "h2" "CN=Fake CA") (newRoundTripper "tcp")
        "tcp" "www.footlocker.com:443").out = .returned (none, some .ErrForbiddeen) ∧
    (dialTLSContextH2 stdLib (servingWorld "" "h2" "CN=Fake CA") (newRoundTripper "tcp")
        "tcp" "www.footlocker.com:443").events =
      [.dialTLSContextH2 "tcp" "www.footlocker.com:443",
       .dial "tcp" "www.footlocker.com:443",
       .handshake (uclient ⟨1⟩ "www.footlocker.com")] ∧
    ∀ c : UConn, Event.close c ∉
      (dialTLSContextH2 stdLib (servingWorld "" "h2" "CN=Fake CA") (newRoundTripper "tcp")
        "tcp" "www.footlocker.com:443").events := by
  have hhost : hostOf stdLib "www.footlocker.com:443" = "www.footlocker.com" := by decide
  have hf : forbidden (servingWorld "" "h2" "CN=Fake CA") "www.footlocker.com" "CN=Fake CA"
      = true := by decide
  have hr := dialTLSContextH2_miss stdLib (servingWorld "" "h2" "CN=Fake CA")
    (newRoundTripper "tcp") "tcp" "www.footlocker.com:443" (Or.inl rfl)
  rw [hhost, negotiate_forbidden (servingWorld "" "h2" "CN=Fake CA") _ "tcp"
    "www.footlocker.com:443" "www.footlocker.com" ⟨1⟩
    { peerCertificates := [⟨"CN=Fake CA"⟩], negotiatedProtocol := "h2" } ⟨"CN=Fake CA"⟩ []
    rfl rfl rfl hf] at hr
  rw [hr]
  refine ⟨rfl, rfl, ?_⟩
  intro c hc
  simp at hc

/-- C6: once a transport is resolved, `RoundTrip` skips the negotiation. If `transport`
holds `t`, then for every request `RoundTrip` returns what `t.RoundTrip(req)` returns,
the only call it makes is that one (no `getTransport`, no `dialTLSContextH2`, no dial,
no handshake), and it assigns no field. -/
theorem roundTrip_resolved (lib : Lib) (w : World) (rt : roundTripper) (req : Request)
    (t : Transport) (ht : rt.transport = some t) :
    (RoundTrip lib w rt req).out = .returned (.delegated t req) ∧
    (RoundTrip lib w rt req).events = [.transportRoundTrip t req] ∧
    (RoundTrip lib w rt req).rt = rt := by
  rw [RoundTrip_of_resolved lib w rt req t ht]
  exact ⟨rfl, rfl, rfl⟩

/-- With the HTTP/2 transport resolved, a request goes straight to it. -/
theorem roundTrip_resolved_witness :
    pendingFootlocker.transport = some h2Transport ∧
    (RoundTrip stdLib (servingWorld "" "" "CN=Fake CA") pendingFootlocker tlsRequest).out
      = .returned (.delegated h2Transport tlsRequest) :=
  ⟨rfl, (roundTrip_resolved stdLib (servingWorld "" "" "CN=Fake CA") pendingFootlocker
    tlsRequest h2Transport rfl).1⟩

/-- C4, as the code behaves: on a dispatcher whose transport was resolved by an "http"
request, a request with the scheme "ftp" is not refused: `RoundTrip` hands it to the
resolved transport. -/
theorem roundTrip_ftp_delegated :
    stdLib.toLower ftpRequest.url.scheme ≠ "http" ∧
    stdLib.toLower ftpRequest.url.scheme ≠ "https" ∧
    (runCalls stdLib (newRoundTripper "tcp")
        [.roundTrip (servingWorld "" "" "CN=Example CA") plainRequest]).transport
      = some plaintextTransport ∧
    (RoundTrip stdLib (servingWorld "" "" "CN=Example CA")
        (runCalls stdLib (newRoundTripper "tcp")
          [.roundTrip (servingWorld "" "" "CN=Example CA") plainRequest]) ftpRequest).out
      = .returned (.delegated plaintextTransport ftpRequest) ∧
    (RoundTrip stdLib (servingWorld "" "" "CN=Example CA")
        (runCalls stdLib (newRoundTripper "tcp")
          [.roundTrip (servingWorld "" "" "CN=Example CA") plainRequest]) ftpRequest).out
      ≠ .returned (.failed (.invalidURLScheme "ftp")) := by
  have h1 : runCalls stdLib (newRoundTripper "tcp")
      [.roundTrip (servingWorld "" "" "CN=Example CA") plainRequest]
      = { newRoundTripper "tcp" with transport := some plaintextTransport } := by
    have hsch : stdLib.toLower plainRequest.url.scheme = "http" := by decide
    simp [runCalls, Call.run, RoundTrip, getTransport, hsch, delegate, newRoundTripper]
  rw [h1]
  refine ⟨by decide, by decide, rfl, ?_, ?_⟩
  · rw [RoundTrip_of_resolved _ _ _ _ plaintextTransport rfl]
  · rw [RoundTrip_of_resolved _ _ _ _ plaintextTransport rfl]
    decide

/-- C4, amended: while no transport is resolved, a request whose scheme in lower case
is neither "http" nor "https" makes `RoundTrip` fail with the error "invalid URL
scheme" that carries the scheme; the only call made is `getTransport` (no dial, no
handshake, no transport is called) and no field is assigned. -/
theorem roundTrip_unsupported_scheme (lib : Lib) (w : World) (rt : roundTripper)
    (req : Request) (hnone : rt.transport = none)
    (h1 : lib.toLower req.url.scheme ≠ "http")
    (h2 : lib.toLower req.url.scheme ≠ "https") :
    (RoundTrip lib w rt req).out = .returned (.failed (.invalidURLScheme req.url.scheme)) ∧
    (RoundTrip lib w rt req).events = [.getTransport req] ∧
    (RoundTrip lib w rt req).rt = rt := by
  simp [RoundTrip, getTransport, hnone, h1, h2]

/-- A new dispatcher refuses `ftp://example.test`. -/
theorem roundTrip_unsupported_scheme_witness :
    ((newRoundTripper "tcp").transport = none ∧
      stdLib.toLower ftpRequest.url.scheme ≠ "http" ∧
      stdLib.toLower ftpRequest.url.scheme ≠ "https") ∧
    (RoundTrip stdLib (servingWorld "" "" "CN=Example CA") (newRoundTripper "tcp")
        ftpRequest).out = .returned (.failed (.invalidURLScheme "ftp")) :=
  ⟨⟨rfl, by decide, by decide⟩,
   (roundTrip_unsupported_scheme stdLib (servingWorld "" "" "CN=Example CA")
      (newRoundTripper "tcp") ftpRequest rfl (by decide) (by decide)).1⟩

/-- C3, as the code behaves: a dispatcher negotiates HTTP/2 with `a.test` and its
transport claims the pending stream; a later connect to `b.test` finds no pending stream,
completes a handshake that negotiates no protocol, and assigns `transport` again: the
HTTP/2 transport is replaced by the fallback transport. -/
theorem transport_assigned_again :
    (runCalls stdLib (newRoundTripper "tcp")
        [.roundTrip (servingWorld "" "h2" "CN=Example CA") tlsRequest,
         .connect (servingWorld "" "h2" "CN=Example CA") "tcp" "a.test:https"]).transport
      = some h2Transport ∧
    (runCalls stdLib (newRoundTripper "tcp")
        [.roundTrip (servingWorld "" "h2" "CN=Example CA") tlsRequest,
         .connect (servingWorld "" "h2" "CN=Example CA") "tcp" "a.test:https"]).initConn
      = none ∧
    (runCalls stdLib (newRoundTripper "tcp")
        [.roundTrip (servingWorld "" "h2" "CN=Example CA") tlsRequest,
         .connect (servingWorld "" "h2" "CN=Example CA") "tcp" "a.test:https",
         .connect (servingWorld "" "" "CN=Example CA") "tcp" "b.test:443"]).transport
      = some fallbackTransport ∧
    h2Transport ≠ fallbackTransport := by
  decide

/-- C3, amended: once `transport` is set, no sequence of `RoundTrip` and connect calls
resets it to absent, and `RoundTrip` assigns no field; a connect leaves `transport` as
it was unless it misses the cache, dials, completes a handshake and returns
`errProtocolNegotiated`, in which case it assigns `transport` again, to the transport
selected from the protocol that handshake negotiated. -/
theorem transport_never_reset (lib : Lib) (rt : roundTripper) (h : rt.transport ≠ none) :
    (∀ calls : List Call, (runCalls lib rt calls).transport ≠ none) ∧
    (∀ (w : World) (req : Request), (RoundTrip lib w rt req).rt = rt) ∧
    (∀ (w : World) (network addr : String),
      ((dialTLSContextH2 lib w rt network addr).rt.transport = rt.transport ∧
        (dialTLSContextH2 lib w rt network addr).out
          ≠ .returned (none, some .errProtocolNegotiated)) ∨
      ∃ (raw : RawConn) (cs : ConnectionState),
        cacheMiss lib rt addr ∧ w.dialFn network addr = .ok raw ∧
        w.handshake (uclient raw (hostOf lib addr)) = .ok cs ∧
        (dialTLSContextH2 lib w rt network addr).out
          = .returned (none, some .errProtocolNegotiated) ∧
        (dialTLSContextH2 lib w rt network addr).rt.transport
          = some (if cs.negotiatedProtocol = "h2" then h2Transport
              else fallbackTransport)) := by
  refine ⟨fun calls => runCalls_transport_ne_none lib calls rt h, ?_, ?_⟩
  · intro w req
    rw [RoundTrip_rt, if_neg h]
  · intro w network addr
    rcases connect_rt_cases lib w rt network addr with
      ⟨hr, ho⟩ | ⟨raw, cs, hmiss, hd, hs, ho, hr⟩
    · exact Or.inl ⟨by rw [hr], ho⟩
    · exact Or.inr ⟨raw, cs, hmiss, hd, hs, ho, by rw [hr]; rfl⟩

/-- The HTTP/2 transport of a dispatcher survives a run of calls. -/
theorem transport_never_reset_witness :
    pendingFootlocker.transport ≠ none ∧
    (runCalls stdLib pendingFootlocker
        [.connect (servingWorld "" "" "CN=Fake CA") "tcp" "www.footlocker.com:443",
         .connect (servingWorld "" "" "CN=Fake CA") "tcp" "www.footlocker.com:443",
         .roundTrip brokenHandshakeWorld tlsRequest]).transport ≠ none :=
  ⟨by decide, (transport_never_reset stdLib pendingFootlocker (by decide)).1 _⟩

/-- C10: the invariant violation does not occur. In every state reached from a new
dispatcher by a sequence of `RoundTrip` and connect calls, whatever the dial and the
handshake answer in each call: a pending stream is present only with a resolved
transport; while the transport is absent, the connect that `getTransport` makes does not
return a nil error (with or without a stream); `RoundTrip` does not return
`ErrUnexpectedState`; and when `getTransport` returns nil, a transport is set and
`RoundTrip` hands the request to it. -/
theorem invariant_violation_unreachable (lib : Lib) (network : String) (calls : List Call)
    (w : World) (req : Request) :
    ((runCalls lib (newRoundTripper network) calls).initConn ≠ none →
      (runCalls lib (newRoundTripper network) calls).transport ≠ none) ∧
    ((runCalls lib (newRoundTripper network) calls).transport = none →
      ∀ x : Option UConn,
        (dialTLSContextH2 lib w (runCalls lib (newRoundTripper network) calls)
            (runCalls lib (newRoundTripper network) calls).Network
            (getDialTLSAddr lib req.url)).out ≠ .returned (x, none)) ∧
    (RoundTrip lib w (runCalls lib (newRoundTripper network) calls) req).out
      ≠ .returned (.failed .ErrUnexpectedState) ∧
    ((runCalls lib (newRoundTripper network) calls).transport = none →
      (getTransport lib w (runCalls lib (newRoundTripper network) calls) req).out
        = .returned none →
      ∃ t : Transport,
        (getTransport lib w (runCalls lib (newRoundTripper network) calls) req).rt.transport
          = some t ∧
        (RoundTrip lib w (runCalls lib (newRoundTripper network) calls) req).out
          = .returned (.delegated t req)) := by
  have hinv : PendingImpliesTransport (runCalls lib (newRoundTripper network) calls) :=
    runCalls_invariant lib calls _ (by simp [PendingImpliesTransport, newRoundTripper])
  generalize runCalls lib (newRoundTripper network) calls = rt at hinv ⊢
  have hpending : rt.transport = none → rt.initConn = none := by
    intro ht
    by_contra hc
    exact hinv hc ht
  refine ⟨hinv, ?_, ?_, ?_⟩
  · intro ht x
    exact connect_error_of_no_pending lib w rt _ _ (hpending ht) x
  · cases ht : rt.transport with
    | some t => rw [RoundTrip_of_resolved lib w rt req t ht]; simp
    | none =>
      unfold RoundTrip
      rcases getTransport_cases lib w rt req (hpending ht) with
        ⟨he, _⟩ | he | ⟨e, he⟩ | he | he
      · simp only [ht, he]
        unfold delegate
        split <;> simp
      all_goals simp [ht, he]
  · intro ht hout
    rcases getTransport_cases lib w rt req (hpending ht) with
      ⟨_, hne⟩ | he | ⟨e, he⟩ | he | he
    · obtain ⟨t, htr⟩ := Option.ne_none_iff_exists'.1 hne
      refine ⟨t, htr, ?_⟩
      unfold RoundTrip
      simp only [ht, hout]
      simp [delegate, htr]
    all_goals (rw [he] at hout; cases hout)

end Rush.Task
